import Mathlib

set_option maxHeartbeats 1600000
set_option maxRecDepth 8000

/-!
Verification development for the Transcrib8 backend note-generation module
(src/backend/notes.py).

Python strings are modelled as Lean `String` (a packed `List Char`, matching
Python's sequence-of-code-points view); low-level character operations work on
`List Char`.  External OpenAI calls are modelled by an `Env` record of oracles
returning `Except PyErr String`; a raised Python exception is the `.error`
case.  JSON documents produced with `json.dumps` stay in structured form
(`JVal`), `.jsonDoc j` standing for the string `json.dumps(j, indent=2)`.
JSON numbers are modelled as integers (every numeric field the module itself
produces is an integer).  Newlines are modelled as the single character `\n`.
The module constants `CHUNK_CHAR_LIMIT` (default 4000) and `MAX_CHUNKS`
(default 6) are read from environment variables in the source, so the
pipeline is parameterised over them as `L` and `M`.
-/

namespace Transcrib8

/-- Python `str` at the character level. -/
abbrev Str := List Char

/-- Characters stripped by Python `str.strip()` (ASCII whitespace: space and
the control characters 9..13). -/
def isPyWs (c : Char) : Bool :=
  c == ' ' || (decide (9 ≤ c.toNat) && decide (c.toNat ≤ 13))

/-- `str.strip()` on a character list. -/
def stripList (s : Str) : Str :=
  ((s.dropWhile isPyWs).reverse.dropWhile isPyWs).reverse

/-- Python `s.strip()`. -/
def pyStrip (s : String) : String := ⟨stripList s.data⟩

/-- Python `s.lower()` (ASCII case folding). -/
def pyLower (s : String) : String := ⟨s.data.map Char.toLower⟩

/-- Python `s[:n]`. -/
def pyTake (s : String) (n : Nat) : String := ⟨s.data.take n⟩

/-- Python `s.strip(chars)`: remove any of `cs` from both ends. -/
def pyStripChars (s : String) (cs : List Char) : String :=
  ⟨((s.data.dropWhile (fun c => decide (c ∈ cs))).reverse.dropWhile
      (fun c => decide (c ∈ cs))).reverse⟩

/-- Python `s.split(sep)` for a one-character separator: keeps empty pieces. -/
def splitOnChar (c : Char) : Str → List Str
  | [] => [[]]
  | a :: rest =>
    let r := splitOnChar c rest
    if a = c then [] :: r
    else
      match r with
      | [] => [[a]]
      | h :: t => (a :: h) :: t

/-- Python `s.split(c)` at the `String` level. -/
def pySplitChar (s : String) (c : Char) : List String :=
  (splitOnChar c s.data).map (fun l => (⟨l⟩ : String))

/-- Python `s.splitlines()` for `\n`-separated text: like `split("\n")` but
without a trailing empty piece. -/
def pySplitlines (s : String) : List String :=
  let parts := pySplitChar s '\n'
  if parts.getLast? = some ("") then parts.dropLast else parts

/-- Python `s.split()` with no argument: whitespace runs, no empty words. -/
def pyWords (s : Str) : List Str :=
  (splitOnChar ' ' (s.map (fun c => if isPyWs c then ' ' else c))).filter
    (fun w => decide (w ≠ []))

/-- `sep.join` on character lists. -/
def listJoinSep (sep : Str) : List Str → Str
  | [] => []
  | [x] => x
  | x :: y :: rest => x ++ sep ++ listJoinSep sep (y :: rest)

/-- Python `sep.join(list)` on strings. -/
def strJoin (sep : String) : List String → String
  | [] => ""
  | [x] => x
  | x :: y :: rest => x ++ sep ++ strJoin sep (y :: rest)

/-- The dedup key of `_dedupe_lines` (notes.py line 123):
`" ".join(line.lower().split())[:200]` — lowercased, whitespace-collapsed,
truncated to 200 characters. -/
def normKey (line : String) : String :=
  ⟨(listJoinSep ([' ']) (pyWords (line.data.map Char.toLower))).take 200⟩

/-- Loop of `_dedupe_lines` (notes.py lines 120-127), with the `seen` set of
normalized keys made explicit. -/
def dedupeAux (seen : List String) : List String → List String
  | [] => []
  | l :: rest =>
    let norm := normKey l
    if norm ≠ ("") ∧ norm ∉ seen then l :: dedupeAux (norm :: seen) rest
    else dedupeAux seen rest

/-- `_dedupe_lines` (notes.py lines 118-127). -/
def _dedupe_lines (lines : List String) : List String := dedupeAux [] lines

/-- Python exceptions that the module can raise internally; the broad
`except Exception` in `generate_structured_notes` catches all of them. -/
inductive PyErr where
  | valueError
  | attributeError
  | serviceError
deriving DecidableEq

/-- Fuelled slice loop; with positive `L` each step consumes at least one
character, so fuel `s.length` always suffices. -/
def pySlicesF (L : Nat) : Nat → Str → List Str
  | 0, _ => []
  | _ + 1, [] => []
  | fuel + 1, c :: rest => (c :: rest).take L :: pySlicesF L fuel ((c :: rest).drop L)

/-- Successive slices `s[i : i+L]` for `i = 0, L, 2L, ...` — the sequence the
`for i in range(0, len(transcript), CHUNK_CHAR_LIMIT)` loop of
`_chunk_transcript` walks (notes.py lines 112-115). -/
def pySlices (L : Nat) (s : Str) : List Str :=
  if L = 0 then [] else pySlicesF L s.length s

/-- `_chunk_transcript` (notes.py lines 107-116) on character lists.  The
`break` at `MAX_CHUNKS` is the `take M`; `range` with step 0 raises
`ValueError` in Python, hence the error case. -/
def chunkList (L M : Nat) (t : Str) : Except PyErr (List Str) :=
  if t.length ≤ L then .ok [t]
  else if L = 0 then .error .valueError
  else .ok ((pySlices L t).take M)

/-- `_chunk_transcript` at the `String` level. -/
def _chunk_transcript (L M : Nat) (t : String) : Except PyErr (List String) :=
  match chunkList L M t.data with
  | .ok cs => .ok (cs.map (fun l => (⟨l⟩ : String)))
  | .error e => .error e

/-- JSON values, as produced by `json.loads` / consumed by `json.dumps`.
Numbers are modelled as integers (see the module comment). -/
inductive JVal where
  | jnull
  | jbool (b : Bool)
  | jnum (n : Int)
  | jstr (s : String)
  | jarr (xs : List JVal)
  | jobj (fs : List (String × JVal))

/-- Python `dict` lookup `d.get(k)` on the association list of a JSON object. -/
def lookupJ : List (String × JVal) → String → Option JVal
  | [], _ => none
  | (k', v) :: rest, k => if k' = k then some v else lookupJ rest k

/-- Python `d[k] = v`: replace in place, or append at the end if absent. -/
def setKey : List (String × JVal) → String → JVal → List (String × JVal)
  | [], k, v => [(k, v)]
  | (k', v') :: rest, k, v =>
    if k' = k then (k, v) :: rest else (k', v') :: setKey rest k v

/-- Python `d.setdefault(k, v)`. -/
def setdefault (d : List (String × JVal)) (k : String) (v : JVal) :
    List (String × JVal) :=
  if (lookupJ d k).isSome then d else d ++ [(k, v)]

/-- Build a `dict` from parsed key/value pairs in order (duplicate keys:
later assignment wins, first position kept, as in CPython). -/
def objFromPairs (ps : List (String × JVal)) : List (String × JVal) :=
  ps.foldl (fun d p => setKey d p.1 p.2) []

/-- The fields of a JSON object (empty for non-objects). -/
def fieldsOf : JVal → List (String × JVal)
  | .jobj fs => fs
  | _ => []

/-- Hexadecimal digit value, for `\u` escapes. -/
def hexVal (c : Char) : Option Nat :=
  if decide ('0' ≤ c) && decide (c ≤ '9') then some (c.toNat - 48)
  else if decide ('a' ≤ c) && decide (c ≤ 'f') then some (c.toNat - 87)
  else if decide ('A' ≤ c) && decide (c ≤ 'F') then some (c.toNat - 55)
  else none

/-- JSON string body parser (the opening quote already consumed): returns the
decoded content and the rest after the closing quote.  Raw control characters
are rejected, as in Python's strict `json.loads`.  Fuelled by the input
length (each step consumes at least one character). -/
def parseJStr : Nat → Str → Option (Str × Str)
  | 0, _ => none
  | _ + 1, [] => none
  | fuel + 1, c :: rest =>
    if c = '"' then some ([], rest)
    else if c = '\\' then
      match rest with
      | [] => none
      | e :: r2 =>
        let esc : Option (Char × Str) :=
          if e = '"' then some ('"', r2)
          else if e = '\\' then some ('\\', r2)
          else if e = '/' then some ('/', r2)
          else if e = 'b' then some (Char.ofNat 8, r2)
          else if e = 'f' then some (Char.ofNat 12, r2)
          else if e = 'n' then some ('\n', r2)
          else if e = 'r' then some ('\r', r2)
          else if e = 't' then some ('\t', r2)
          else if e = 'u' then
            match r2 with
            | a :: b :: c2 :: d :: r3 =>
              match hexVal a, hexVal b, hexVal c2, hexVal d with
              | some x, some y, some z, some w =>
                some (Char.ofNat (((x * 16 + y) * 16 + z) * 16 + w), r3)
              | _, _, _, _ => none
            | _ => none
          else none
        match esc with
        | none => none
        | some (ch, r3) => (parseJStr fuel r3).map (fun p => (ch :: p.1, p.2))
    else if c.toNat < 32 then none
    else (parseJStr fuel rest).map (fun p => (c :: p.1, p.2))

/-- Digits of a decimal literal to a natural number. -/
def natOfDigits (ds : Str) : Nat :=
  ds.foldl (fun n c => n * 10 + (c.toNat - 48)) 0

/-- Unsigned JSON integer: one or more digits, no leading zero, and not
followed by a fraction or exponent (floats are outside the model; a document
containing one does not parse). -/
def parseUNumber (s : Str) : Option (Nat × Str) :=
  match s with
  | [] => none
  | c :: _ =>
    if c.isDigit then
      let digs := s.takeWhile Char.isDigit
      let r := s.dropWhile Char.isDigit
      if c = '0' ∧ 1 < digs.length then none
      else if r.head? = some '.' ∨ r.head? = some 'e' ∨ r.head? = some 'E' then
        none
      else some (natOfDigits digs, r)
    else none

/-- JSON number with optional leading minus. -/
def parseNumber (s : Str) : Option (Int × Str) :=
  match s with
  | '-' :: rest => (parseUNumber rest).map (fun p => (-(p.1 : Int), p.2))
  | _ => (parseUNumber s).map (fun p => ((p.1 : Int), p.2))

/-- JSON whitespace. -/
def jsonWs (c : Char) : Bool :=
  c == ' ' || c == '\t' || c == '\n' || c == '\r'

mutual

/-- Recursive-descent JSON value parser (models `json.loads`), fuelled. -/
def parseVal : Nat → Str → Option (JVal × Str)
  | 0, _ => none
  | fuel + 1, s =>
    match s.dropWhile jsonWs with
    | [] => none
    | '"' :: r => (parseJStr (r.length + 1) r).map (fun p => (JVal.jstr ⟨p.1⟩, p.2))
    | '{' :: r =>
      (match r.dropWhile jsonWs with
       | '}' :: r2 => some (JVal.jobj [], r2)
       | r1 => (parseMembers fuel r1).map (fun p => (JVal.jobj (objFromPairs p.1), p.2)))
    | '[' :: r =>
      (match r.dropWhile jsonWs with
       | ']' :: r2 => some (JVal.jarr [], r2)
       | r1 => (parseItems fuel r1).map (fun p => (JVal.jarr p.1, p.2)))
    | c :: r =>
      if (("true").data).isPrefixOf (c :: r) then
        some (JVal.jbool true, (c :: r).drop 4)
      else if (("false").data).isPrefixOf (c :: r) then
        some (JVal.jbool false, (c :: r).drop 5)
      else if (("null").data).isPrefixOf (c :: r) then
        some (JVal.jnull, (c :: r).drop 4)
      else (parseNumber (c :: r)).map (fun p => (JVal.jnum p.1, p.2))

/-- Object members: `"key" : value (, "key" : value)* }`. -/
def parseMembers : Nat → Str → Option (List (String × JVal) × Str)
  | 0, _ => none
  | fuel + 1, s =>
    match s with
    | '"' :: r =>
      match parseJStr (r.length + 1) r with
      | none => none
      | some (key, r2) =>
        match r2.dropWhile jsonWs with
        | ':' :: r3 =>
          match parseVal fuel r3 with
          | none => none
          | some (v, r4) =>
            match r4.dropWhile jsonWs with
            | ',' :: r5 =>
              (parseMembers fuel (r5.dropWhile jsonWs)).map
                (fun p => (((⟨key⟩ : String), v) :: p.1, p.2))
            | '}' :: r5 => some ([((⟨key⟩ : String), v)], r5)
            | _ => none
        | _ => none
    | _ => none

/-- Array items: `value (, value)* ]`. -/
def parseItems : Nat → Str → Option (List JVal × Str)
  | 0, _ => none
  | fuel + 1, s =>
    match parseVal fuel s with
    | none => none
    | some (v, r) =>
      match r.dropWhile jsonWs with
      | ',' :: r2 => (parseItems fuel r2).map (fun p => (v :: p.1, p.2))
      | ']' :: r2 => some ([v], r2)
      | _ => none

end

/-- `json.loads` on a whole document: a single value with only whitespace
left over, else a decode failure (`none`). -/
def pyJsonLoads (s : String) : Option JVal :=
  match parseVal (4 * s.data.length + 4) s.data with
  | some (v, rest) => if rest.dropWhile jsonWs = [] then some v else none
  | none => none

/-- First index `≥ start` at which `sub` occurs in the scanned suffix;
models `s.index(sub, start)` / `s.split(sub, 1)` searches. -/
def findSubAux (sub : Str) : Str → Nat → Option Nat
  | [], i => if sub = [] then some i else none
  | c :: rest, i =>
    if sub.isPrefixOf (c :: rest) then some i
    else findSubAux sub rest (i + 1)

/-- Concept/reason split of one bubble line body (notes.py lines 312-335):
`s` is the line with its leading `-` removed and stripped.  Returns the
concept (possibly empty, in which case the line is dropped) and reason. -/
def parseBubbleBody (s : Str) : Str × Str :=
  if (['*', '*']).isPrefixOf s then
    match findSubAux (['*', '*']) (s.drop 2) 2 with
    | some e =>
      let concept := stripList ((s.drop 2).take (e - 2))
      let after := stripList (s.drop (e + 2))
      let reason :=
        if after.head? = some '—' ∨ after.head? = some '-' then
          stripList (after.drop 1)
        else after
      (concept, reason)
    | none => (stripList s, [])
  else
    match findSubAux (['—']) s 0 with
    | some e => (stripList (s.take e), stripList (s.drop (e + 1)))
    | none => (stripList s, [])

/-- Scanner state inside the "Mindmap Bubbles" section (notes.py lines
306-339): stop at the next heading, collect dash lines with a non-empty
concept, `room` is how many more bubbles may still be appended before the
12-entry cap breaks the loop. -/
def scanInSection : List String → Nat → List JVal
  | [], _ => []
  | line :: rest, room =>
    let l := stripList line.data
    if (['#', '#', ' ']).isPrefixOf l ∨ (['#', ' ']).isPrefixOf l then []
    else if l.head? = some '-' then
      let s := stripList (l.drop 1)
      let cr := parseBubbleBody s
      if cr.1 ≠ [] then
        let b := JVal.jobj [(("concept"), .jstr ⟨cr.1⟩), (("reason"), .jstr ⟨cr.2⟩),
          (("importance"), .jnum 3)]
        if room ≤ 1 then [b] else b :: scanInSection rest (room - 1)
      else scanInSection rest room
    else scanInSection rest room

/-- Look for the line whose stripped, lowercased form starts with
`## mindmap bubbles` (notes.py lines 302-305). -/
def extractLoop : List String → List JVal
  | [] => []
  | line :: rest =>
    if (("## mindmap bubbles").data).isPrefixOf
        ((stripList line.data).map Char.toLower) then
      scanInSection rest 12
    else extractLoop rest

/-- `_extract_bubbles_from_text` (notes.py lines 293-340). -/
def _extract_bubbles_from_text (text : String) : List JVal :=
  extractLoop (pySplitlines text)

/-- Python `int(x)` on a string: optional surrounding whitespace, optional
sign, decimal digits. -/
def pyIntOfString (s : String) : Option Int :=
  let t := stripList s.data
  let digits : Str → Option Int := fun ds =>
    if ds ≠ [] ∧ ds.all Char.isDigit then some ((natOfDigits ds : Int))
    else none
  match t with
  | '-' :: ds => (digits ds).map (fun n => -n)
  | '+' :: ds => digits ds
  | ds => digits ds

/-- Python `int(x)` on a JSON value (`none` = raises). -/
def pyIntOfJVal : JVal → Option Int
  | .jnum n => some n
  | .jbool b => some (if b then 1 else 0)
  | .jstr s => pyIntOfString s
  | _ => none

/-- The importance normalisation of notes.py lines 229-234:
`int` with fallback 3, then clamp into `[1, 5]`. -/
def clampImportance (v : JVal) : Int :=
  max 1 (min 5 ((pyIntOfJVal v).getD 3))

/-- Clamp pass over one element of the `mindmap_bubbles` list (notes.py
lines 227-234): dict elements get their `importance` set, others are left
untouched. -/
def clampBubble : JVal → JVal
  | .jobj b =>
    .jobj (setKey b ("importance")
      (.jnum (clampImportance ((lookupJ b ("importance")).getD (.jnum 3)))))
  | v => v

/-- The parse-success normalisation of `generate_structured_notes`
(notes.py lines 220-235): `setdefault` the `title`,
`transcript_character_count` and `mindmap_bubbles` fields, then clamp
importances when the bubbles value is a list. -/
def normalizeParsedJson (d : List (String × JVal)) (title : String)
    (tlen : Nat) : JVal :=
  let d1 := setdefault d ("title") (.jstr title)
  let d2 := setdefault d1 ("transcript_character_count") (.jnum (tlen : Int))
  let d3 := setdefault d2 ("mindmap_bubbles") (.jarr [])
  match lookupJ d3 ("mindmap_bubbles") with
  | some (.jarr bs) =>
    .jobj (setKey d3 ("mindmap_bubbles") (.jarr (bs.map clampBubble)))
  | _ => .jobj d3

/-- The parse-failure repair record of notes.py lines 239-248. -/
def repairRecord (title raw : String) (tlen : Nat) : JVal :=
  .jobj [(("title"), .jstr title), (("raw_output"), .jstr raw),
    (("error"), .jstr ("JSON parsing failed")),
    (("transcript_character_count"), .jnum (tlen : Int)),
    (("mindmap_bubbles"), .jarr (_extract_bubbles_from_text raw))]

/-- JSON reconciliation (notes.py lines 218-248): parse the reply; on a
parsed object, normalise it; on a parsed non-object, Python's
`data.setdefault` raises `AttributeError`; on a decode failure, build the
repair record. -/
def reconcileJson (output title : String) (tlen : Nat) : Except PyErr JVal :=
  match pyJsonLoads output with
  | some (.jobj d) => .ok (normalizeParsedJson d title tlen)
  | some _ => .error .attributeError
  | none => .ok (repairRecord title output tlen)

/-- A value returned by the note generators: either a plain string or
`json.dumps` of a record. -/
inductive NoteOut where
  | text (s : String)
  | jsonDoc (j : JVal)

/-- The external services: `get_api_key`, and the chat-completion calls for
chunk summarisation and final generation, each given the user prompt the
code builds.  `.error` models a raised exception at that call. -/
structure Env where
  apiKey : Except PyErr String
  summarizeReply : String → Except PyErr String
  finalReply : String → Except PyErr String

/-- `format_type.lower() == "json"`. -/
def isJson (fmt : String) : Bool := pyLower fmt == ("json")

/-- `build_prompt` (notes.py lines 54-77). -/
def build_prompt (transcript title : String) : String :=
  "You are an expert study assistant.\n" ++
  "Create clear, exam-focused notes from the transcript. Also identify the top study concepts as \x27mindmap bubbles\x27.\n\n" ++
  "Title: " ++ title ++ "\n\n" ++
  "OUTPUT FORMAT (Markdown only):\n" ++
  "## Summary\n" ++
  "- 2-4 sentence overview that captures scope and stakes.\n\n" ++
  "## Key Concepts\n" ++
  "- 8-15 bullet points. Each: term - short explanation (<=140 chars).\n\n" ++
  "## Mindmap Bubbles\n" ++
  "- List the 6-10 most important concepts, one per line, using this format: **Concept** — why it matters (<=100 chars).\n\n" ++
  "## Important Details\n" ++
  "- 10-25 bullets of facts, numbers, or formulas (each <120 chars).\n\n" ++
  "## Study Questions\n" ++
  "- 5 questions (2 easy, 2 medium, 1 hard) - no answers.\n\n" ++
  "Constraints:\n" ++
  "- Be detailed and dense with useful information.\n- Do not invent unsupported content.\n- Prefer specific terminology and examples from transcript.\n" ++
  "- Avoid generic filler.\n\n" ++
  "TRANSCRIPT START\n" ++ transcript ++ "\nTRANSCRIPT END"

/-- `build_json_prompt` (notes.py lines 80-104). -/
def build_json_prompt (transcript title : String) : String :=
  "You are an expert study assistant.\n" ++
  "Extract structured study notes from the entire transcript below.\n" ++
  "Return ONLY valid JSON.\n\n" ++
  "Fields:\n" ++
  "  title: string\n" ++
  "  summary: string (2-3 sentences)\n" ++
  "  key_concepts: array of objects \x7bterm, explanation\x7d\n" ++
  "  important_details: array of strings (facts, formulas, numbers)\n" ++
  "  study_questions: array of objects \x7bquestion, difficulty in [\x27easy\x27,\x27medium\x27,\x27hard\x27]\x7d\n" ++
  "  mindmap_bubbles: array of objects \x7bconcept, reason, importance\x7d (importance integer 1-5; top 6-10 most important concepts)\n" ++
  "  transcript_character_count: integer\n\n" ++
  "Rules:\n" ++
  " - Cover the whole lecture; avoid repetition and merge overlapping points.\n" ++
  " - Do not hallucinate content.\n" ++
  " - Provide exactly 5 study_questions (2 easy, 2 medium, 1 hard).\n" ++
  " - Provide 10-20 important_details entries if the transcript length permits.\n" ++
  " - Provide 8-15 key_concepts entries if the transcript length permits.\n" ++
  " - Keep explanations concise and factual.\n\n" ++
  "TRANSCRIPT START\n" ++ transcript ++ "\nTRANSCRIPT END"

/-- The chunk-summary prompt of `_summarize_chunk` (notes.py lines 132-137). -/
def summarizePrompt (idx total : Nat) (chunk : String) : String :=
  "You are condensing part " ++ toString idx ++ "/" ++ toString total ++
  " of a lecture transcript.\n" ++
  "Extract 4-8 bullet points capturing unique key concepts, formulas, or facts.\n" ++
  "Avoid repetition across parts; include only novel, salient information.\nPART START\n" ++
  chunk ++ "\nPART END"

/-- Post-processing of one chunk-summary reply (notes.py lines 147-150):
strip, split into lines, drop blank lines, strip `"- "` bullet markers,
dedupe, re-join as dashed bullets. -/
def postProcessSummary (content : String) : String :=
  let stripped := pyStrip content
  let bullets := ((pySplitlines stripped).filter
    (fun l => decide (pyStrip l ≠ ("")))).map (fun l => pyStripChars l (['-', ' ']))
  strJoin ("\n") ((_dedupe_lines bullets).map (fun b => ("- ") ++ b))

/-- `_summarize_chunk` (notes.py lines 130-150): one external call plus
post-processing. -/
def _summarize_chunk (env : Env) (chunk : String) (idx total : Nat) :
    Except PyErr String :=
  match env.summarizeReply (summarizePrompt idx total chunk) with
  | .error e => .error e
  | .ok content => .ok (postProcessSummary content)

/-- The chunk-summary list comprehension of notes.py lines 184-187,
sequential, stopping at the first raised exception; the second component
counts the external summarisation calls attempted. -/
def summarizeSeq (env : Env) (total : Nat) :
    Nat → List String → Except PyErr (List String) × Nat
  | _, [] => (.ok [], 0)
  | i, c :: rest =>
    match _summarize_chunk env c (i + 1) total with
    | .error e => (.error e, 1)
    | .ok s =>
      match summarizeSeq env total (i + 1) rest with
      | (.ok ss, k) => (.ok (s :: ss), k + 1)
      | (.error e, k) => (.error e, k + 1)

/-- The digest banner of notes.py lines 193-196. -/
def digestHeader (n : Nat) : String :=
  "SYNTHESIZED BULLET SUMMARIES (original length " ++ toString n ++ " chars)\n"

/-- The condensation step of `generate_structured_notes` (notes.py lines
180-196): with more than one chunk, summarise every chunk, flatten, strip
bullet markers, dedupe across chunks and synthesise the bullet digest;
otherwise the working text is the untouched transcript.  The second
component counts external summarisation calls. -/
def condense (env : Env) (t : String) (chunks : List String) :
    Except PyErr String × Nat :=
  if 1 < chunks.length then
    match summarizeSeq env chunks.length 0 chunks with
    | (.error e, k) => (.error e, k)
    | (.ok summaries, k) =>
      let flat := (summaries.map (fun s => ((pySplitlines s).filter
        (fun l => decide (pyStrip l ≠ ("")))).map
          (fun l => pyStripChars l (['-', ' '])))).flatten
      let flat2 := _dedupe_lines flat
      let flatText := strJoin ("\n") (flat2.map (fun b => ("- ") ++ b))
      (.ok (digestHeader t.length ++ flatText), k)
  else (.ok t, 0)

/-- `if not api_key: api_key = get_api_key()` (notes.py lines 176-177):
an empty or missing argument falls back to `get_api_key`. -/
def resolveKey (env : Env) (a : Option String) : Except PyErr String :=
  match a with
  | some k => if k = ("") then env.apiKey else .ok k
  | none => env.apiKey

/-- The prompt selection of notes.py lines 198-201. -/
def promptFor (fmtJson : Bool) (condensed title : String) : String :=
  if fmtJson then build_json_prompt condensed title
  else build_prompt condensed title

/-- The reply handling of notes.py lines 216-249 given the stripped reply
`output`: markdown replies are returned verbatim, JSON replies go through
reconciliation. -/
def finishReply (fmtJson : Bool) (output title : String) (tlen : Nat) :
    Except PyErr NoteOut :=
  if fmtJson then
    match reconcileJson output title tlen with
    | .error e => .error e
    | .ok j => .ok (.jsonDoc j)
  else .ok (.text output)

/-- The body of the `try` block of `generate_structured_notes` (notes.py
lines 175-249): key resolution, chunking, condensation, prompting, the
final generation call and reconciliation.  Returns the result (`.error` =
an exception reaching the `except` handler) plus the counts of external
summarisation and generation calls attempted. -/
def tryBody (L M : Nat) (env : Env) (ak : Option String)
    (transcript title : String) (fmtJson : Bool) :
    Except PyErr NoteOut × Nat × Nat :=
  match resolveKey env ak with
  | .error e => (.error e, 0, 0)
  | .ok _ =>
    match _chunk_transcript L M transcript with
    | .error e => (.error e, 0, 0)
    | .ok chunks =>
      match condense env transcript chunks with
      | (.error e, k) => (.error e, k, 0)
      | (.ok condensed, k) =>
        match env.finalReply (promptFor fmtJson condensed title) with
        | .error e => (.error e, k, 1)
        | .ok content =>
          (finishReply fmtJson (pyStrip content) title transcript.length, k, 1)

/-- The too-short placeholder string (notes.py line 173). -/
def tooShortMsg : String := "Transcript too short to generate meaningful notes."

/-- The too-short JSON record (notes.py lines 162-172).  It carries no
`mindmap_bubbles` field. -/
def tooShortRecord (title : String) (tlen : Nat) : JVal :=
  .jobj [(("title"), .jstr title), (("summary"), .jstr tooShortMsg),
    (("key_concepts"), .jarr []), (("important_details"), .jarr []),
    (("study_questions"), .jarr []),
    (("transcript_character_count"), .jnum (tlen : Int))]

/-- The pseudo-sentence key points of `generate_simple_notes` (notes.py
lines 259-261): split on period boundaries, keep stripped sentences longer
than 40 characters, keep every third one, up to 10 total. -/
def everyThird : List String → List String
  | [] => []
  | x :: rest => x :: everyThird (rest.drop 2)
termination_by l => l.length
decreasing_by
  simp only [List.length_cons, List.length_drop]
  omega

/-- `key_points` of `generate_simple_notes`. -/
def keyPoints (t : String) : List String :=
  let sentences := pySplitChar ⟨t.data.flatMap
    (fun c => if c = '.' then ['.', '\n'] else [c])⟩ '\n'
  let sentences := (sentences.map pyStrip).filter
    (fun s => decide (s ≠ ("") ∧ 40 < s.length))
  (everyThird sentences).take 10

/-- The JSON record of `generate_simple_notes` (notes.py lines 263-280). -/
def simpleNotesJson (t ti : String) : JVal :=
  let kps := keyPoints t
  .jobj [(("title"), .jstr ti),
    (("summary"), .jstr ("Fallback notes (AI unavailable).")),
    (("key_concepts"), .jarr (kps.enum.map (fun p =>
      .jobj [(("term"), .jstr (("Point ") ++ toString (p.1 + 1))),
        (("explanation"), .jstr (pyTake p.2 120))]))),
    (("important_details"), .jarr ((kps.take 10).map (fun kp => .jstr kp))),
    (("study_questions"), .jarr []),
    (("mindmap_bubbles"), .jarr ((kps.take 8).enum.map (fun p =>
      .jobj [(("concept"), .jstr (("Concept ") ++ toString (p.1 + 1))),
        (("reason"), .jstr (pyTake p.2 90)), (("importance"), .jnum 3)]))),
    (("transcript_character_count"), .jnum ((t.length : Int)))]

/-- The markdown document of `generate_simple_notes` (notes.py lines
281-290). -/
def simpleNotesMd (t ti : String) : String :=
  strJoin ("\n") (([("# ") ++ ti, ("## Summary"),
    ("Fallback notes (AI unavailable)."), ("## Key Concepts")] ++
    (keyPoints t).map (fun kp => ("- ") ++ kp)) ++
    [(""), ("## Full Transcript"), t])

/-- `generate_simple_notes` (notes.py lines 255-290): the pure,
deterministic extractive fallback. -/
def generate_simple_notes (transcript title format_type : String) : NoteOut :=
  if isJson format_type then .jsonDoc (simpleNotesJson transcript title)
  else .text (simpleNotesMd transcript title)

/-- `generate_structured_notes` (notes.py lines 153-252): triviality check,
then the `try` body with the broad `except` falling back to
`generate_simple_notes` on the original transcript.  The trailing pair
counts external summarisation and generation calls attempted. -/
def generate_structured_notes (L M : Nat) (env : Env)
    (transcript title format_type : String) (api_key : Option String) :
    NoteOut × Nat × Nat :=
  if transcript = ("") ∨ (pyStrip transcript).length < 80 then
    ((if isJson format_type then .jsonDoc (tooShortRecord title transcript.length)
      else .text tooShortMsg), 0, 0)
  else
    match tryBody L M env api_key transcript title (isJson format_type) with
    | (.ok out, s, f) => (out, s, f)
    | (.error _, s, f) => (generate_simple_notes transcript title format_type, s, f)

/-- A 100-character transcript (passes the 80-character triviality check). -/
def t100 : String := ⟨List.replicate 100 'a'⟩

/-- An environment whose final generation call raises. -/
def envFail : Env :=
  ⟨.ok ("k"), fun _ => .ok (""), fun _ => .error .serviceError⟩

/-- A model reply that already carries a (wrong) character count. -/
def countReply : String := "\x7b\"transcript_character_count\": 999\x7d"

/-- An environment whose final reply supplies its own character count. -/
def envC2 : Env := ⟨.ok ("k"), fun _ => .ok (""), fun _ => .ok countReply⟩

/-- The malformed-JSON reply of the spec scenario: the section heading sits
mid-line. -/
def scenarioReply : String :=
  "Here are your notes: ## Mindmap Bubbles\n- **Entropy** — drives disorder"

/-- The same reply with the section heading at the start of a line. -/
def scenarioReplyNl : String :=
  "## Mindmap Bubbles\n- **Entropy** — drives disorder"

/-- An environment whose final reply is the scenario's malformed JSON. -/
def envC4 : Env := ⟨.ok ("k"), fun _ => .ok (""), fun _ => .ok scenarioReply⟩

/-- A model reply with an out-of-range importance value. -/
def bubblesReply : String :=
  "\x7b\"mindmap_bubbles\": [\x7b\"importance\": 9\x7d]\x7d"

/-- An environment whose final reply carries an out-of-range importance. -/
def envC5 : Env := ⟨.ok ("k"), fun _ => .ok (""), fun _ => .ok bubblesReply⟩

/-- An environment returning distinct bullet summaries per chunk prompt,
used to exercise the condensation step. -/
def envW : Env :=
  ⟨.ok ("k"),
   fun p => .ok (("- bullet ") ++ (⟨(p.data.drop 24).take 1⟩ : String)),
   fun _ => .ok ("")⟩

/-- The bullet digest `envW` produces on the three-chunk split of an
8-character transcript. -/
def digestW : String :=
  digestHeader 8 ++ "- bullet 1\n- bullet 2\n- bullet 3"

/-! Theorems.  First the deduplication and chunking facts, then the shape
lemmas about the JSON records, then the claims about the full pipeline. -/

theorem dedupeAux_idem (ls : List String) :
    ∀ seen, dedupeAux seen (dedupeAux seen ls) = dedupeAux seen ls := by
  induction ls with
  | nil => intro seen; rfl
  | cons l rest ih =>
    intro seen
    by_cases h : normKey l ≠ ("") ∧ normKey l ∉ seen
    · simp only [dedupeAux, if_pos h, ih]
    · simp only [dedupeAux, if_neg h, ih]

/-- Claim C9: the normalise-and-dedup step is idempotent — applying
`_dedupe_lines` twice yields the same list as applying it once (the dedup
key `normKey` being the lowercased, whitespace-collapsed form truncated to
200 characters). -/
theorem claim_C9 (lines : List String) :
    _dedupe_lines (_dedupe_lines lines) = _dedupe_lines lines :=
  dedupeAux_idem lines []

theorem pySlicesF_fuel_eq {L : Nat} (hL : L ≠ 0) :
    ∀ (f1 f2 : Nat) (s : Str), s.length ≤ f1 → s.length ≤ f2 →
      pySlicesF L f1 s = pySlicesF L f2 s := by
  have hL1 : 1 ≤ L := Nat.one_le_iff_ne_zero.mpr hL
  intro f1
  induction f1 with
  | zero =>
    intro f2 s h1 h2
    have hs : s = [] := List.length_eq_zero.mp (by omega)
    subst hs
    cases f2 <;> rfl
  | succ f1 ih =>
    intro f2 s h1 h2
    cases s with
    | nil => cases f2 <;> rfl
    | cons c rest =>
      cases f2 with
      | zero => simp at h2
      | succ f2 =>
        simp only [pySlicesF]
        congr 1
        apply ih
        · rw [List.length_drop]
          simp only [List.length_cons] at h1 ⊢
          omega
        · rw [List.length_drop]
          simp only [List.length_cons] at h2 ⊢
          omega

theorem pySlices_nil (L : Nat) : pySlices L [] = [] := by
  by_cases h : L = 0
  · simp [pySlices, h]
  · simp [pySlices, h, pySlicesF]

theorem pySlices_cons {L : Nat} (hL : L ≠ 0) {s : Str} (hs : s ≠ []) :
    pySlices L s = s.take L :: pySlices L (s.drop L) := by
  have hL1 : 1 ≤ L := Nat.one_le_iff_ne_zero.mpr hL
  unfold pySlices
  rw [if_neg hL, if_neg hL]
  cases s with
  | nil => exact absurd rfl hs
  | cons c rest =>
    simp only [pySlicesF, List.length_cons]
    congr 1
    apply pySlicesF_fuel_eq hL
    · rw [List.length_drop]
      simp only [List.length_cons]
      omega
    · exact le_rfl

theorem ceilDiv_succ (L n : Nat) (hL : L ≠ 0) (hn : n ≠ 0) :
    (n + L - 1) / L = (n - 1) / L + 1 := by
  have h1 : n + L - 1 = (n - 1) + L := by omega
  rw [h1, Nat.add_div_right _ (by omega)]

theorem pySlices_flatten {L : Nat} (hL : L ≠ 0) (s : Str) :
    (pySlices L s).flatten = s := by
  by_cases hs : s = []
  · subst hs; simp [pySlices_nil]
  · rw [pySlices_cons hL hs, List.flatten_cons, pySlices_flatten hL (s.drop L),
      List.take_append_drop]
termination_by s.length
decreasing_by
  simp only [List.length_drop]
  have hpos : 0 < s.length := List.length_pos.mpr hs
  omega

theorem pySlices_length {L : Nat} (hL : L ≠ 0) (s : Str) :
    (pySlices L s).length = (s.length + L - 1) / L := by
  by_cases hs : s = []
  · subst hs; simp [pySlices_nil]
    rw [Nat.div_eq_of_lt (by omega)]
  · rw [pySlices_cons hL hs, List.length_cons, pySlices_length hL (s.drop L),
      List.length_drop]
    have h0 : 0 < s.length := List.length_pos.mpr hs
    rw [ceilDiv_succ L s.length hL (by omega)]
    by_cases h : s.length ≤ L
    · have hdl : s.length - L = 0 := by omega
      rw [hdl]
      rw [Nat.div_eq_of_lt (by omega), Nat.div_eq_of_lt (by omega)]
    · rw [ceilDiv_succ L (s.length - L) hL (by omega)]
      have h2 : s.length - 1 = (s.length - L - 1) + L := by omega
      rw [h2, Nat.add_div_right _ (by omega)]
termination_by s.length
decreasing_by
  simp only [List.length_drop]
  have hpos : 0 < s.length := List.length_pos.mpr hs
  omega

theorem pySlices_mem {L : Nat} (hL : L ≠ 0) (s : Str) :
    ∀ c ∈ pySlices L s, c ≠ [] ∧ c.length ≤ L := by
  by_cases hs : s = []
  · subst hs; simp [pySlices_nil]
  · rw [pySlices_cons hL hs]
    intro c hc
    rcases List.mem_cons.mp hc with rfl | h
    · refine ⟨?_, ?_⟩
      · simp only [ne_eq, List.take_eq_nil_iff]
        push_neg
        exact ⟨hL, hs⟩
      · simp [List.length_take]
    · exact pySlices_mem hL (s.drop L) c h
termination_by s.length
decreasing_by
  simp only [List.length_drop]
  have hpos : 0 < s.length := List.length_pos.mpr hs
  omega

theorem pySlices_get_len {L : Nat} (hL : L ≠ 0) (s : Str) :
    ∀ i c, i + 1 < (pySlices L s).length → (pySlices L s)[i]? = some c →
      c.length = L := by
  by_cases hs : s = []
  · subst hs; simp [pySlices_nil]
  · rw [pySlices_cons hL hs]
    intro i c hi hc
    match i with
    | 0 =>
      rw [List.getElem?_cons_zero] at hc
      have hc2 : s.take L = c := by injection hc
      have hd : s.drop L ≠ [] := by
        intro h0
        rw [List.length_cons, h0, pySlices_nil] at hi
        simp at hi
      have hdl : L < s.length := by
        have h1 : (s.drop L).length = s.length - L := List.length_drop _ _
        have h2 : 0 < (s.drop L).length := List.length_pos.mpr hd
        omega
      rw [← hc2, List.length_take]
      omega
    | i + 1 =>
      rw [List.getElem?_cons_succ] at hc
      refine pySlices_get_len hL (s.drop L) i c ?_ hc
      rw [List.length_cons] at hi
      omega
termination_by s.length
decreasing_by
  simp only [List.length_drop]
  have hpos : 0 < s.length := List.length_pos.mpr hs
  omega

theorem getElem?_take_of_lt {α : Type} (l : List α) (M i : Nat) (h : i < M) :
    (l.take M)[i]? = l[i]? := by
  induction l generalizing M i with
  | nil => simp
  | cons a rest ih =>
    match M, h with
    | M + 1, _ =>
      match i with
      | 0 => simp
      | i + 1 =>
        rw [List.take_succ_cons, List.getElem?_cons_succ,
          List.getElem?_cons_succ]
        exact ih M i (by omega)

/-- Claim C3: `_chunk_transcript` returns `[transcript]` when the length is
at most the chunk limit; otherwise it returns (without erroring) exactly
`min (ceil (length / limit)) MAX_CHUNKS` chunks, each of exactly `limit`
characters except possibly the final one, none empty, whose concatenation
is a prefix of the transcript.  The limit and cap are the configurable
constants `CHUNK_CHAR_LIMIT` / `MAX_CHUNKS` (defaults 4000 and 6), here the
parameters `L` and `M` with the configured `L` positive. -/
theorem claim_C3 (L M : Nat) (t : Str) (hL : 0 < L) :
    (t.length ≤ L → chunkList L M t = .ok [t]) ∧
    (L < t.length → ∃ cs, chunkList L M t = .ok cs ∧
      cs.length = min ((t.length + L - 1) / L) M ∧
      (∀ i c, i + 1 < cs.length → cs[i]? = some c → c.length = L) ∧
      (∀ c ∈ cs, c ≠ [] ∧ c.length ≤ L) ∧
      ∃ r, cs.flatten ++ r = t) := by
  have hL0 : L ≠ 0 := by omega
  constructor
  · intro h; unfold chunkList; rw [if_pos h]
  · intro h
    have hnle : ¬ t.length ≤ L := by omega
    refine ⟨(pySlices L t).take M, ?_, ?_, ?_, ?_, ?_⟩
    · unfold chunkList; rw [if_neg hnle, if_neg hL0]
    · rw [List.length_take, pySlices_length hL0, Nat.min_comm]
    · intro i c hi hc
      have hlen := List.length_take M (pySlices L t)
      have hiM : i < M := by omega
      rw [getElem?_take_of_lt _ _ _ hiM] at hc
      refine pySlices_get_len hL0 t i c ?_ hc
      omega
    · intro c hc
      exact pySlices_mem hL0 t c (List.mem_of_mem_take hc)
    · refine ⟨((pySlices L t).drop M).flatten, ?_⟩
      rw [← List.flatten_append, List.take_append_drop, pySlices_flatten hL0]

/-- Witness for claim C3 at limit 3, cap 2, on an 8-character transcript. -/
theorem claim_C3_witness :
    ∃ cs, chunkList 3 2 (("abcdefgh").data) = .ok cs ∧
      cs.length = min (((("abcdefgh").data).length + 3 - 1) / 3) 2 ∧
      (∀ i c, i + 1 < cs.length → cs[i]? = some c → c.length = 3) ∧
      (∀ c ∈ cs, c ≠ [] ∧ c.length ≤ 3) ∧
      ∃ r, cs.flatten ++ r = ("abcdefgh").data :=
  (claim_C3 3 2 (("abcdefgh").data) (by decide)).2 (by decide)

theorem lookupJ_append (d1 d2 : List (String × JVal)) (k : String) :
    lookupJ (d1 ++ d2) k =
      match lookupJ d1 k with
      | some v => some v
      | none => lookupJ d2 k := by
  induction d1 with
  | nil => simp [lookupJ]
  | cons p rest ih =>
    obtain ⟨k', v⟩ := p
    by_cases h : k' = k
    · simp [lookupJ, h]
    · simp only [List.cons_append, lookupJ, if_neg h]
      exact ih

theorem lookupJ_setKey_self (d : List (String × JVal)) (k : String) (v : JVal) :
    lookupJ (setKey d k v) k = some v := by
  induction d with
  | nil => simp [setKey, lookupJ]
  | cons p rest ih =>
    obtain ⟨k', v'⟩ := p
    by_cases h : k' = k
    · simp [setKey, lookupJ, h]
    · simp [setKey, lookupJ, h, ih]

theorem lookupJ_setKey_ne (d : List (String × JVal)) (k k' : String) (v : JVal)
    (h : k' ≠ k) : lookupJ (setKey d k v) k' = lookupJ d k' := by
  have hne : ¬ k = k' := fun hh => h hh.symm
  induction d with
  | nil => simp only [setKey, lookupJ, if_neg hne]
  | cons p rest ih =>
    obtain ⟨k2, v2⟩ := p
    by_cases h2 : k2 = k
    · subst h2
      simp only [setKey, if_pos rfl, lookupJ, if_neg hne]
    · simp only [setKey, if_neg h2, lookupJ]
      by_cases h3 : k2 = k'
      · simp [h3]
      · simp [h3, ih]

theorem lookupJ_setdefault_self (d : List (String × JVal)) (k : String)
    (v : JVal) :
    lookupJ (setdefault d k v) k = some ((lookupJ d k).getD v) := by
  unfold setdefault
  cases h : lookupJ d k with
  | some w => simp [h]
  | none => simp [h, lookupJ_append, lookupJ]

theorem lookupJ_setdefault_ne (d : List (String × JVal)) (k k' : String)
    (v : JVal) (h : k' ≠ k) :
    lookupJ (setdefault d k v) k' = lookupJ d k' := by
  unfold setdefault
  cases hs : (lookupJ d k).isSome with
  | true => simp [hs]
  | false =>
    simp only [hs, Bool.false_eq_true, if_false]
    rw [lookupJ_append]
    have hne : ¬ k = k' := fun hh => h (Eq.symm hh)
    cases h2 : lookupJ d k' with
    | some w => simp
    | none => simp only [lookupJ, if_neg hne]

theorem normalize_count (d : List (String × JVal)) (ti : String) (n : Nat) :
    lookupJ (fieldsOf (normalizeParsedJson d ti n)) ("transcript_character_count") =
      some ((lookupJ d ("transcript_character_count")).getD (.jnum (n : Int))) := by
  unfold normalizeParsedJson
  have hne1 : ("transcript_character_count" : String) ≠ ("mindmap_bubbles") := by decide
  have hne2 : ("transcript_character_count" : String) ≠ ("title") := by decide
  cases hb : lookupJ (setdefault (setdefault (setdefault d ("title") (.jstr ti))
      ("transcript_character_count") (.jnum (n : Int)))
      ("mindmap_bubbles") (.jarr [])) ("mindmap_bubbles") with
  | none =>
    simp only [hb, fieldsOf]
    rw [lookupJ_setdefault_ne _ _ _ _ hne1, lookupJ_setdefault_self,
      lookupJ_setdefault_ne _ _ _ _ hne2]
  | some x =>
    cases x with
    | jarr bs =>
      simp only [hb, fieldsOf]
      rw [lookupJ_setKey_ne _ _ _ _ hne1,
        lookupJ_setdefault_ne _ _ _ _ hne1, lookupJ_setdefault_self,
        lookupJ_setdefault_ne _ _ _ _ hne2]
    | jnull =>
      simp only [hb, fieldsOf]
      rw [lookupJ_setdefault_ne _ _ _ _ hne1, lookupJ_setdefault_self,
        lookupJ_setdefault_ne _ _ _ _ hne2]
    | jbool b =>
      simp only [hb, fieldsOf]
      rw [lookupJ_setdefault_ne _ _ _ _ hne1, lookupJ_setdefault_self,
        lookupJ_setdefault_ne _ _ _ _ hne2]
    | jnum m =>
      simp only [hb, fieldsOf]
      rw [lookupJ_setdefault_ne _ _ _ _ hne1, lookupJ_setdefault_self,
        lookupJ_setdefault_ne _ _ _ _ hne2]
    | jstr s =>
      simp only [hb, fieldsOf]
      rw [lookupJ_setdefault_ne _ _ _ _ hne1, lookupJ_setdefault_self,
        lookupJ_setdefault_ne _ _ _ _ hne2]
    | jobj fs =>
      simp only [hb, fieldsOf]
      rw [lookupJ_setdefault_ne _ _ _ _ hne1, lookupJ_setdefault_self,
        lookupJ_setdefault_ne _ _ _ _ hne2]

theorem normalize_bubbles_isSome (d : List (String × JVal)) (ti : String)
    (n : Nat) :
    (lookupJ (fieldsOf (normalizeParsedJson d ti n)) ("mindmap_bubbles")).isSome := by
  unfold normalizeParsedJson
  have hself := lookupJ_setdefault_self
    (setdefault (setdefault d ("title") (.jstr ti))
      ("transcript_character_count") (.jnum (n : Int)))
    ("mindmap_bubbles") (.jarr [])
  cases hb : lookupJ (setdefault (setdefault (setdefault d ("title") (.jstr ti))
      ("transcript_character_count") (.jnum (n : Int)))
      ("mindmap_bubbles") (.jarr [])) ("mindmap_bubbles") with
  | none => rw [hb] at hself; simp at hself
  | some x =>
    cases x with
    | jarr bs => simp only [hb, fieldsOf]; rw [lookupJ_setKey_self]; rfl
    | jnull => simp only [hb, fieldsOf, hb]; rfl
    | jbool b => simp only [hb, fieldsOf, hb]; rfl
    | jnum m => simp only [hb, fieldsOf, hb]; rfl
    | jstr s => simp only [hb, fieldsOf, hb]; rfl
    | jobj fs => simp only [hb, fieldsOf, hb]; rfl

theorem clampImportance_range (v : JVal) :
    1 ≤ clampImportance v ∧ clampImportance v ≤ 5 := by
  unfold clampImportance
  omega

theorem normalize_bubbles_clamped (d : List (String × JVal)) (ti : String)
    (n : Nat) (bs : List JVal)
    (h : lookupJ (fieldsOf (normalizeParsedJson d ti n)) ("mindmap_bubbles") =
      some (.jarr bs)) :
    ∀ b ∈ bs, ∀ bd, b = JVal.jobj bd → ∀ v, lookupJ bd ("importance") = some v →
      ∃ m, v = JVal.jnum m ∧ 1 ≤ m ∧ m ≤ 5 := by
  unfold normalizeParsedJson at h
  have hself := lookupJ_setdefault_self
    (setdefault (setdefault d ("title") (.jstr ti))
      ("transcript_character_count") (.jnum (n : Int)))
    ("mindmap_bubbles") (.jarr [])
  cases hb : lookupJ (setdefault (setdefault (setdefault d ("title") (.jstr ti))
      ("transcript_character_count") (.jnum (n : Int)))
      ("mindmap_bubbles") (.jarr [])) ("mindmap_bubbles") with
  | none => rw [hb] at hself; simp at hself
  | some x =>
    cases x with
    | jarr bs0 =>
      simp only [hb, fieldsOf] at h
      rw [lookupJ_setKey_self] at h
      have hbs : bs = bs0.map clampBubble := by
        injection h with h1
        injection h1 with h2
        exact h2.symm
      subst hbs
      intro b hbmem bd hbd v hv
      rcases List.mem_map.mp hbmem with ⟨b0, hb0mem, hb0⟩
      cases b0 with
      | jobj bd0 =>
        simp only [clampBubble] at hb0
        rw [← hb0] at hbd
        injection hbd with hbd2
        rw [← hbd2] at hv
        rw [lookupJ_setKey_self] at hv
        refine ⟨clampImportance ((lookupJ bd0 ("importance")).getD (.jnum 3)),
          ?_, ?_, ?_⟩
        · injection hv with hv2; exact hv2.symm
        · exact (clampImportance_range _).1
        · exact (clampImportance_range _).2
      | jnull => rw [← hb0] at hbd; simp only [clampBubble] at hbd; cases hbd
      | jbool b2 => rw [← hb0] at hbd; simp only [clampBubble] at hbd; cases hbd
      | jnum m2 => rw [← hb0] at hbd; simp only [clampBubble] at hbd; cases hbd
      | jstr s2 => rw [← hb0] at hbd; simp only [clampBubble] at hbd; cases hbd
      | jarr xs => rw [← hb0] at hbd; simp only [clampBubble] at hbd; cases hbd
    | jnull =>
      simp only [hb, fieldsOf] at h
      simp at h
    | jbool b =>
      simp only [hb, fieldsOf] at h
      simp at h
    | jnum m =>
      simp only [hb, fieldsOf] at h
      simp at h
    | jstr s =>
      simp only [hb, fieldsOf] at h
      simp at h
    | jobj fs =>
      simp only [hb, fieldsOf] at h
      simp at h

theorem scanInSection_shape (lines : List String) :
    ∀ (room : Nat), ∀ b ∈ scanInSection lines room,
      ∃ c r, b = JVal.jobj [(("concept"), .jstr c), (("reason"), .jstr r),
        (("importance"), .jnum 3)] := by
  induction lines with
  | nil => intro room b hb; simp [scanInSection] at hb
  | cons line rest ih =>
    intro room b hb
    simp only [scanInSection] at hb
    by_cases h1 : (['#', '#', ' ']).isPrefixOf (stripList line.data) ∨
        (['#', ' ']).isPrefixOf (stripList line.data)
    · rw [if_pos h1] at hb; simp at hb
    · rw [if_neg h1] at hb
      by_cases h2 : (stripList line.data).head? = some '-'
      · rw [if_pos h2] at hb
        by_cases h3 : (parseBubbleBody (stripList ((stripList line.data).drop 1))).1 ≠ []
        · rw [if_pos h3] at hb
          by_cases h4 : room ≤ 1
          · rw [if_pos h4] at hb
            rcases List.mem_singleton.mp hb with rfl
            exact ⟨_, _, rfl⟩
          · rw [if_neg h4] at hb
            rcases List.mem_cons.mp hb with rfl | hmem
            · exact ⟨_, _, rfl⟩
            · exact ih _ b hmem
        · rw [if_neg h3] at hb
          exact ih _ b hb
      · rw [if_neg h2] at hb
        exact ih _ b hb

theorem scanInSection_len (lines : List String) :
    ∀ (room : Nat), 1 ≤ room → (scanInSection lines room).length ≤ room := by
  induction lines with
  | nil => intro room _; simp [scanInSection]
  | cons line rest ih =>
    intro room hroom
    simp only [scanInSection]
    by_cases h1 : (['#', '#', ' ']).isPrefixOf (stripList line.data) ∨
        (['#', ' ']).isPrefixOf (stripList line.data)
    · rw [if_pos h1]; simp
    · rw [if_neg h1]
      by_cases h2 : (stripList line.data).head? = some '-'
      · rw [if_pos h2]
        by_cases h3 : (parseBubbleBody (stripList ((stripList line.data).drop 1))).1 ≠ []
        · rw [if_pos h3]
          by_cases h4 : room ≤ 1
          · rw [if_pos h4]; simpa using hroom
          · rw [if_neg h4]
            have := ih (room - 1) (by omega)
            simp only [List.length_cons]
            omega
        · rw [if_neg h3]
          exact ih room hroom
      · rw [if_neg h2]
        exact ih room hroom

theorem extractLoop_shape (lines : List String) :
    ∀ b ∈ extractLoop lines,
      ∃ c r, b = JVal.jobj [(("concept"), .jstr c), (("reason"), .jstr r),
        (("importance"), .jnum 3)] := by
  induction lines with
  | nil => intro b hb; simp [extractLoop] at hb
  | cons line rest ih =>
    intro b hb
    simp only [extractLoop] at hb
    by_cases h1 : (("## mindmap bubbles").data).isPrefixOf
        ((stripList line.data).map Char.toLower)
    · rw [if_pos h1] at hb
      exact scanInSection_shape rest 12 b hb
    · rw [if_neg h1] at hb
      exact ih b hb

theorem extractLoop_len (lines : List String) :
    (extractLoop lines).length ≤ 12 := by
  induction lines with
  | nil => simp [extractLoop]
  | cons line rest ih =>
    simp only [extractLoop]
    by_cases h1 : (("## mindmap bubbles").data).isPrefixOf
        ((stripList line.data).map Char.toLower)
    · rw [if_pos h1]
      exact scanInSection_len rest 12 (by omega)
    · rw [if_neg h1]
      exact ih

theorem extract_shape (text : String) :
    ∀ b ∈ _extract_bubbles_from_text text,
      ∃ c r, b = JVal.jobj [(("concept"), .jstr c), (("reason"), .jstr r),
        (("importance"), .jnum 3)] :=
  extractLoop_shape (pySplitlines text)

theorem extract_len (text : String) :
    (_extract_bubbles_from_text text).length ≤ 12 :=
  extractLoop_len (pySplitlines text)

theorem reconcile_cases (output ti : String) (n : Nat) (j : JVal)
    (h : reconcileJson output ti n = .ok j) :
    (∃ d, j = normalizeParsedJson d ti n) ∨ j = repairRecord ti output n := by
  unfold reconcileJson at h
  cases hp : pyJsonLoads output with
  | none =>
    rw [hp] at h
    right
    injection h with h1
    exact h1.symm
  | some v =>
    rw [hp] at h
    cases v with
    | jobj d =>
      left
      refine ⟨d, ?_⟩
      injection h with h1
      exact h1.symm
    | jnull => cases h
    | jbool b => cases h
    | jnum m => cases h
    | jstr s => cases h
    | jarr xs => cases h

theorem tryBody_cases (L M : Nat) (env : Env) (ak : Option String)
    (t ti : String) (fj : Bool) (out : NoteOut) (s f : Nat)
    (h : tryBody L M env ak t ti fj = (.ok out, s, f)) :
    (fj = true → ∃ j, out = .jsonDoc j ∧
      ((∃ d, j = normalizeParsedJson d ti t.length) ∨
       (∃ raw, j = repairRecord ti raw t.length))) ∧
    (fj = false → ∃ s0, out = .text s0) := by
  unfold tryBody at h
  split at h
  · simp at h
  · split at h
    · simp at h
    · split at h
      · simp at h
      · split at h
        · simp at h
        · simp only [Prod.mk.injEq] at h
          have hfin : finishReply fj (pyStrip _) ti t.length = Except.ok out := h.1
          unfold finishReply at hfin
          cases fj with
          | true =>
            rw [if_pos rfl] at hfin
            cases hr : reconcileJson (pyStrip _) ti t.length with
            | error e => rw [hr] at hfin; cases hfin
            | ok j =>
              rw [hr] at hfin
              have hout : out = NoteOut.jsonDoc j := by
                injection hfin with h2
                exact h2.symm
              refine ⟨fun _ => ⟨j, hout, ?_⟩, fun hff => by cases hff⟩
              rcases reconcile_cases _ _ _ _ hr with hd | hrep
              · exact Or.inl hd
              · exact Or.inr ⟨_, hrep⟩
          | false =>
            rw [if_neg (by simp)] at hfin
            injection hfin with h2
            refine ⟨fun htt => ?_, fun _ => ⟨_, h2.symm⟩⟩
            cases htt

theorem gen_jsonDoc_cases (L M : Nat) (env : Env) (ak : Option String)
    (t ti fmt : String) (j : JVal)
    (h : (generate_structured_notes L M env t ti fmt ak).1 = .jsonDoc j) :
    ((t = ("") ∨ (pyStrip t).length < 80) ∧ j = tooShortRecord ti t.length) ∨
    (¬(t = ("") ∨ (pyStrip t).length < 80) ∧
      ((∃ d, j = normalizeParsedJson d ti t.length) ∨
       (∃ raw, j = repairRecord ti raw t.length) ∨
       j = simpleNotesJson t ti)) := by
  unfold generate_structured_notes at h
  by_cases hs : t = ("") ∨ (pyStrip t).length < 80
  · rw [if_pos hs] at h
    left
    refine ⟨hs, ?_⟩
    by_cases hj : isJson fmt
    · simp only [hj, if_true] at h
      injection h with h1
      exact h1.symm
    · simp only [hj, if_false] at h
      simp at h
  · rw [if_neg hs] at h
    right
    refine ⟨hs, ?_⟩
    cases htb : tryBody L M env ak t ti (isJson fmt) with
    | mk res sf =>
      obtain ⟨s, f⟩ := sf
      rw [htb] at h
      cases res with
      | ok out =>
        have h2 : out = NoteOut.jsonDoc j := h
        have hcs := tryBody_cases L M env ak t ti (isJson fmt) out s f htb
        by_cases hf : isJson fmt = true
        · rcases hcs.1 hf with ⟨j', hj', hin⟩
          rw [h2] at hj'
          have hjj : j = j' := by injection hj'
          rcases hin with ⟨d, hd⟩ | ⟨raw, hraw⟩
          · exact Or.inl ⟨d, hjj ▸ hd⟩
          · exact Or.inr (Or.inl ⟨raw, hjj ▸ hraw⟩)
        · rcases hcs.2 (by simpa using hf) with ⟨s0, hs0⟩
          rw [h2] at hs0
          cases hs0
      | error e =>
        have h2 : generate_simple_notes t ti fmt = NoteOut.jsonDoc j := h
        unfold generate_simple_notes at h2
        by_cases hf : isJson fmt
        · rw [if_pos hf] at h2
          right; right
          injection h2 with h3
          exact h3.symm
        · rw [if_neg hf] at h2
          cases h2

theorem summarizeSeq_ok_count (env : Env) (total : Nat) (l : List String) :
    ∀ (i : Nat) (ss : List String) (k : Nat),
      summarizeSeq env total i l = (.ok ss, k) → k = l.length := by
  induction l with
  | nil =>
    intro i ss k h
    simp only [summarizeSeq, Prod.mk.injEq] at h
    simp [← h.2]
  | cons c rest ih =>
    intro i ss k h
    unfold summarizeSeq at h
    cases hsum : _summarize_chunk env c (i + 1) total with
    | error e => rw [hsum] at h; simp at h
    | ok s2 =>
      rw [hsum] at h
      cases hrec : summarizeSeq env total (i + 1) rest with
      | mk res2 k2 =>
        rw [hrec] at h
        cases res2 with
        | ok ss2 =>
          simp only [Prod.mk.injEq] at h
          have hk2 := ih (i + 1) ss2 k2 hrec
          simp only [List.length_cons]
          omega
        | error e => simp at h

theorem summarizeSeq_pos (env : Env) (total i : Nat) (c : String)
    (rest : List String) :
    1 ≤ (summarizeSeq env total i (c :: rest)).2 := by
  unfold summarizeSeq
  cases _summarize_chunk env c (i + 1) total with
  | error e => simp
  | ok s2 =>
    cases summarizeSeq env total (i + 1) rest with
    | mk res2 k2 => cases res2 <;> simp

/-- Claim C8: the chunk summariser is invoked iff chunking produced more
than one chunk.  A transcript within the limit produces the single chunk
`[t]` and an untouched working text with zero summarisation calls; with
more than one chunk, every chunk is summarised (one call each on success)
and the working text becomes the bullet digest — the header carrying the
original transcript's character count — over a deduplicated (dedup-stable)
bullet list. -/
theorem claim_C8 (L M : Nat) (env : Env) (t : String) :
    (t.length ≤ L → _chunk_transcript L M t = .ok [t] ∧
      condense env t [t] = (.ok t, 0)) ∧
    (∀ cs, _chunk_transcript L M t = .ok cs →
      (((condense env t cs).2 = 0) ↔ cs.length ≤ 1) ∧
      (cs.length ≤ 1 → condense env t cs = (.ok t, 0)) ∧
      (1 < cs.length → ∀ c k, condense env t cs = (.ok c, k) →
        k = cs.length ∧ ∃ bs, c = digestHeader t.length ++
          strJoin ("\n") (bs.map (fun b => ("- ") ++ b)) ∧
          _dedupe_lines bs = bs)) := by
  constructor
  · intro hle
    constructor
    · unfold _chunk_transcript chunkList
      rw [if_pos (show t.data.length ≤ L from hle)]
      rfl
    · unfold condense
      rw [if_neg (by simp)]
  · intro cs hcs
    refine ⟨?_, ?_, ?_⟩
    · constructor
      · intro h0
        by_contra hlen
        push_neg at hlen
        unfold condense at h0
        rw [if_pos hlen] at h0
        cases cs with
        | nil => simp at hlen
        | cons c0 rest =>
          have hpos := summarizeSeq_pos env (c0 :: rest).length 0 c0 rest
          cases hss : summarizeSeq env (c0 :: rest).length 0 (c0 :: rest) with
          | mk res k =>
            rw [hss] at h0 hpos
            cases res with
            | error e => simp at h0; omega
            | ok ss => simp at h0; omega
      · intro hlen
        unfold condense
        rw [if_neg (by omega)]
    · intro hlen
      unfold condense
      rw [if_neg (by omega)]
    · intro hlen c k hck
      unfold condense at hck
      rw [if_pos hlen] at hck
      cases hss : summarizeSeq env cs.length 0 cs with
      | mk res k2 =>
        rw [hss] at hck
        cases res with
        | error e => simp at hck
        | ok summaries =>
          simp only [Prod.mk.injEq, Except.ok.injEq] at hck
          obtain ⟨hc, hk⟩ := hck
          constructor
          · rw [← hk]
            exact summarizeSeq_ok_count env cs.length cs 0 summaries k2 hss
          · refine ⟨_dedupe_lines ((summaries.map (fun s => ((pySplitlines s).filter
              (fun l => decide (pyStrip l ≠ ("")))).map
                (fun l => pyStripChars l (['-', ' '])))).flatten), ?_, ?_⟩
            · exact hc.symm
            · exact dedupeAux_idem _ []

/-- Witness for claim C8: limit 3, an 8-character transcript split into
three chunks, an environment returning one distinct bullet per chunk. -/
theorem claim_C8_witness :
    (3 : Nat) = ([("abc"), ("def"), ("gh")] : List String).length ∧
    ∃ bs, digestW = digestHeader (String.length ("abcdefgh")) ++
      strJoin ("\n") (bs.map (fun b => ("- ") ++ b)) ∧ _dedupe_lines bs = bs :=
  ((claim_C8 3 6 envW (("abcdefgh"))).2 ([("abc"), ("def"), ("gh")])
    (by rfl)).2.2 (by decide) digestW 3 (by rfl)

/-- Claim C1: `generate_structured_notes` never raises — every run resolves
to the too-short placeholder, a successful try-body output, or the
deterministic fallback — and whenever any step inside the `try` block
raises (after the triviality check), the returned value is exactly
`generate_simple_notes` applied to the original, uncondensed transcript. -/
theorem claim_C1 (L M : Nat) (env : Env) (ak : Option String)
    (t ti fmt : String) :
    ((generate_structured_notes L M env t ti fmt ak).1 =
        (if isJson fmt then NoteOut.jsonDoc (tooShortRecord ti t.length)
         else NoteOut.text tooShortMsg) ∨
      (∃ out s f, tryBody L M env ak t ti (isJson fmt) = (.ok out, s, f) ∧
        (generate_structured_notes L M env t ti fmt ak).1 = out) ∨
      (generate_structured_notes L M env t ti fmt ak).1 =
        generate_simple_notes t ti fmt) ∧
    (¬(t = ("") ∨ (pyStrip t).length < 80) →
      ∀ e s f, tryBody L M env ak t ti (isJson fmt) = (.error e, s, f) →
        (generate_structured_notes L M env t ti fmt ak).1 =
          generate_simple_notes t ti fmt) := by
  constructor
  · unfold generate_structured_notes
    by_cases hs : t = ("") ∨ (pyStrip t).length < 80
    · rw [if_pos hs]; left; rfl
    · rw [if_neg hs]
      cases htb : tryBody L M env ak t ti (isJson fmt) with
      | mk res sf =>
        obtain ⟨s, f⟩ := sf
        cases res with
        | ok out =>
          right; left
          exact ⟨out, s, f, rfl, rfl⟩
        | error e =>
          right; right
          rfl
  · intro hs e s f htb
    unfold generate_structured_notes
    rw [if_neg hs, htb]

/-- Witness for claim C1: a failing final-generation call on a 100-character
transcript falls back to `generate_simple_notes`. -/
theorem claim_C1_witness :
    (generate_structured_notes 4000 6 envFail t100 ("T") ("markdown") none).1 =
      generate_simple_notes t100 ("T") ("markdown") :=
  (claim_C1 4000 6 envFail none t100 ("T") ("markdown")).2 (by decide)
    .serviceError 0 1 (by rfl)

/-- Claim C6: a transcript whose stripped form has fewer than 80 characters
(the empty transcript included) short-circuits: the result is exactly the
fixed placeholder (markdown string, or the JSON record with the placeholder
summary, empty lists and `transcript_character_count = len(transcript)`),
zero external calls are counted, and the result is independent of the
environment. -/
theorem claim_C6 (L M : Nat) (env : Env) (ak : Option String)
    (t ti fmt : String) (h : t = ("") ∨ (pyStrip t).length < 80) :
    generate_structured_notes L M env t ti fmt ak =
      ((if isJson fmt then NoteOut.jsonDoc (tooShortRecord ti t.length)
        else NoteOut.text tooShortMsg), 0, 0) ∧
    tooShortRecord ti t.length = JVal.jobj [(("title"), .jstr ti),
      (("summary"), .jstr tooShortMsg), (("key_concepts"), .jarr []),
      (("important_details"), .jarr []), (("study_questions"), .jarr []),
      (("transcript_character_count"), .jnum ((t.length : Int)))] ∧
    tooShortMsg = ("Transcript too short to generate meaningful notes.") ∧
    (∀ env2 : Env, generate_structured_notes L M env2 t ti fmt ak =
      generate_structured_notes L M env t ti fmt ak) := by
  refine ⟨?_, rfl, rfl, ?_⟩
  · unfold generate_structured_notes
    rw [if_pos h]
  · intro env2
    unfold generate_structured_notes
    rw [if_pos h, if_pos h]

/-- Witness for claim C6 on the two-character transcript `"hi"`. -/
theorem claim_C6_witness :
    generate_structured_notes 4000 6 envFail ("hi") ("T") ("json") none =
      ((if isJson ("json") then
          NoteOut.jsonDoc (tooShortRecord ("T") (String.length ("hi")))
        else NoteOut.text tooShortMsg), 0, 0) :=
  (claim_C6 4000 6 envFail none ("hi") ("T") ("json") (by decide)).1

/-- Claim C7: `generate_simple_notes` is a pure Lean function (hence
deterministic); in JSON format its record has `key_concepts` built from the
key points truncated to 120 characters, `important_details` equal to the
(at most 10) key points, `mindmap_bubbles` built from the first at most 8
key points with synthetic labels and importance 3, and
`transcript_character_count = len(transcript)`, where the key points come
from splitting on period boundaries, keeping stripped pseudo-sentences
longer than 40 characters, then every third one up to 10. -/
theorem claim_C7 (t ti : String) :
    generate_simple_notes t ti ("json") = .jsonDoc (simpleNotesJson t ti) ∧
    lookupJ (fieldsOf (simpleNotesJson t ti)) ("important_details") =
      some (.jarr (((keyPoints t).take 10).map (fun kp => JVal.jstr kp))) ∧
    lookupJ (fieldsOf (simpleNotesJson t ti)) ("key_concepts") =
      some (.jarr ((keyPoints t).enum.map (fun p =>
        JVal.jobj [(("term"), .jstr (("Point ") ++ toString (p.1 + 1))),
          (("explanation"), .jstr (pyTake p.2 120))]))) ∧
    lookupJ (fieldsOf (simpleNotesJson t ti)) ("mindmap_bubbles") =
      some (.jarr (((keyPoints t).take 8).enum.map (fun p =>
        JVal.jobj [(("concept"), .jstr (("Concept ") ++ toString (p.1 + 1))),
          (("reason"), .jstr (pyTake p.2 90)), (("importance"), .jnum 3)]))) ∧
    lookupJ (fieldsOf (simpleNotesJson t ti)) ("transcript_character_count") =
      some (.jnum ((t.length : Int))) ∧
    keyPoints t = (everyThird (((pySplitChar ⟨t.data.flatMap
      (fun c => if c = '.' then ['.', '\n'] else [c])⟩ '\n').map pyStrip).filter
      (fun s => decide (s ≠ ("") ∧ 40 < s.length)))).take 10 ∧
    (keyPoints t).length ≤ 10 := by
  refine ⟨rfl, rfl, rfl, rfl, rfl, rfl, ?_⟩
  simp only [keyPoints]
  rw [List.length_take]
  omega

theorem importance3_entry (c r : String) (bd : List (String × JVal)) (v : JVal)
    (hbd : JVal.jobj [(("concept"), .jstr c), (("reason"), .jstr r),
      (("importance"), .jnum 3)] = JVal.jobj bd)
    (hv : lookupJ bd ("importance") = some v) :
    ∃ m, v = JVal.jnum m ∧ 1 ≤ m ∧ m ≤ 5 := by
  injection hbd with h1
  rw [← h1] at hv
  have hv2 : some (JVal.jnum 3) = some v := hv
  injection hv2 with h2
  exact ⟨3, h2.symm, by omega, by omega⟩

/-- Claim C5: in every JSON record `generate_structured_notes` returns
(so in particular on the parse-success path), every `importance` value of
every dict entry of a `mindmap_bubbles` array lies in `[1, 5]`; the clamp
maps 9 to 5, -2 to 1 and the non-numeric `"bad"` to 3. -/
theorem claim_C5 (L M : Nat) (env : Env) (ak : Option String)
    (t ti fmt : String) (j : JVal)
    (h : (generate_structured_notes L M env t ti fmt ak).1 = .jsonDoc j) :
    (∀ bs, lookupJ (fieldsOf j) ("mindmap_bubbles") = some (.jarr bs) →
      ∀ b ∈ bs, ∀ bd, b = JVal.jobj bd →
        ∀ v, lookupJ bd ("importance") = some v →
          ∃ m, v = JVal.jnum m ∧ 1 ≤ m ∧ m ≤ 5) ∧
    clampImportance (.jnum 9) = 5 ∧ clampImportance (.jnum (-2)) = 1 ∧
    clampImportance (.jstr ("bad")) = 3 := by
  refine ⟨?_, by decide, by decide, by decide⟩
  intro bs hbs b hb bd hbd v hv
  rcases gen_jsonDoc_cases L M env ak t ti fmt j h with ⟨hs, hj⟩ | ⟨hs, hj⟩
  · subst hj
    have hnone : lookupJ (fieldsOf (tooShortRecord ti t.length))
        ("mindmap_bubbles") = none := rfl
    rw [hnone] at hbs
    cases hbs
  · rcases hj with ⟨d, hd⟩ | ⟨raw, hraw⟩ | hsimple
    · subst hd
      exact normalize_bubbles_clamped d ti t.length bs hbs b hb bd hbd v hv
    · subst hraw
      have hlook : lookupJ (fieldsOf (repairRecord ti raw t.length))
          ("mindmap_bubbles") =
          some (.jarr (_extract_bubbles_from_text raw)) := rfl
      rw [hlook] at hbs
      have hbs2 : bs = _extract_bubbles_from_text raw := by
        injection hbs with h1
        injection h1 with h2
        exact h2.symm
      subst hbs2
      rcases extract_shape raw b hb with ⟨c, r, hb2⟩
      rw [hb2] at hbd
      exact importance3_entry c r bd v hbd hv
    · subst hsimple
      have hlook : lookupJ (fieldsOf (simpleNotesJson t ti))
          ("mindmap_bubbles") =
          some (.jarr (((keyPoints t).take 8).enum.map (fun p =>
            JVal.jobj [(("concept"), .jstr (("Concept ") ++ toString (p.1 + 1))),
              (("reason"), .jstr (pyTake p.2 90)),
              (("importance"), .jnum 3)]))) := rfl
      rw [hlook] at hbs
      have hbs2 : bs = ((keyPoints t).take 8).enum.map (fun p =>
          JVal.jobj [(("concept"), .jstr (("Concept ") ++ toString (p.1 + 1))),
            (("reason"), .jstr (pyTake p.2 90)),
            (("importance"), .jnum 3)]) := by
        injection hbs with h1
        injection h1 with h2
        exact h2.symm
      subst hbs2
      rcases List.mem_map.mp hb with ⟨p, hp, hfp⟩
      rw [← hfp] at hbd
      exact importance3_entry _ _ bd v hbd hv

/-- Witness for claim C5: an environment returning importance 9, clamped to
5 in the output record. -/
theorem claim_C5_witness :
    ∃ m, JVal.jnum 5 = JVal.jnum m ∧ 1 ≤ m ∧ m ≤ 5 :=
  (claim_C5 4000 6 envC5 none t100 ("T") ("json") _ (by rfl)).1
    [JVal.jobj [(("importance"), JVal.jnum 5)]] (by rfl)
    (JVal.jobj [(("importance"), JVal.jnum 5)]) (List.mem_singleton_self _)
    [(("importance"), JVal.jnum 5)] rfl (JVal.jnum 5) (by rfl)

/-- Claim C2 (amended): in every JSON record `generate_structured_notes`
returns, `transcript_character_count` equals `len(transcript)` of the
original transcript — except that on the parse-success path a
`transcript_character_count` field already present in the model's parsed
record is preserved verbatim (`dict.setdefault` does not overwrite). -/
theorem claim_C2 (L M : Nat) (env : Env) (ak : Option String) (t ti : String)
    (j : JVal)
    (h : (generate_structured_notes L M env t ti ("json") ak).1 = .jsonDoc j) :
    lookupJ (fieldsOf j) ("transcript_character_count") =
      some (.jnum ((t.length : Int))) ∨
    ∃ d v, j = normalizeParsedJson d ti t.length ∧
      lookupJ d ("transcript_character_count") = some v ∧
      lookupJ (fieldsOf j) ("transcript_character_count") = some v := by
  rcases gen_jsonDoc_cases L M env ak t ti ("json") j h with ⟨hs, hj⟩ | ⟨hs, hj⟩
  · subst hj; left; rfl
  · rcases hj with ⟨d, hd⟩ | ⟨raw, hraw⟩ | hsimple
    · subst hd
      cases hv : lookupJ d ("transcript_character_count") with
      | none =>
        left
        rw [normalize_count, hv]
        rfl
      | some v =>
        right
        refine ⟨d, v, rfl, hv, ?_⟩
        rw [normalize_count, hv]
        rfl
    · subst hraw; left; rfl
    · subst hsimple; left; rfl

/-- Witness for claim C2 on the too-short path. -/
theorem claim_C2_witness :
    lookupJ (fieldsOf (tooShortRecord ("T") (String.length ("hi"))))
      ("transcript_character_count") =
        some (.jnum ((String.length ("hi") : Int))) ∨
    ∃ d v, tooShortRecord ("T") (String.length ("hi")) =
        normalizeParsedJson d ("T") (String.length ("hi")) ∧
      lookupJ d ("transcript_character_count") = some v ∧
      lookupJ (fieldsOf (tooShortRecord ("T") (String.length ("hi"))))
        ("transcript_character_count") = some v :=
  claim_C2 4000 6 envFail none ("hi") ("T") _ (by rfl)

/-- Counterexample to claim C2 as stated: a parsed model reply supplying
`transcript_character_count = 999` survives into the output record, though
the original transcript has 100 characters. -/
theorem claim_C2_counterexample :
    ∃ j, (generate_structured_notes 4000 6 envC2 t100 ("T") ("json") none).1 =
        .jsonDoc j ∧
      lookupJ (fieldsOf j) ("transcript_character_count") =
        some (.jnum 999) ∧
      t100.length = 100 ∧ (999 : Int) ≠ 100 :=
  ⟨_, rfl, rfl, rfl, by decide⟩

/-- Claim C4 (amended): on a JSON decode failure the reconciliation step
returns the repair record — `error: "JSON parsing failed"`, `raw_output`
equal to the (stripped) reply it tried to parse, the original transcript's
character count, and `mindmap_bubbles` from the heuristic line-scanner,
capped at 12 entries of shape `{concept, reason, importance = 3}`.  For the
spec's scenario reply the heading sits mid-line, so the scanner finds no
section and extracts `[]`; with the heading at the start of a line it
extracts the single Entropy bubble. -/
theorem claim_C4 :
    (∀ (output ti : String) (n : Nat), pyJsonLoads output = none →
      reconcileJson output ti n = .ok (repairRecord ti output n) ∧
      lookupJ (fieldsOf (repairRecord ti output n)) ("error") =
        some (.jstr ("JSON parsing failed")) ∧
      lookupJ (fieldsOf (repairRecord ti output n)) ("raw_output") =
        some (.jstr output) ∧
      lookupJ (fieldsOf (repairRecord ti output n))
        ("transcript_character_count") = some (.jnum ((n : Int))) ∧
      lookupJ (fieldsOf (repairRecord ti output n)) ("mindmap_bubbles") =
        some (.jarr (_extract_bubbles_from_text output)) ∧
      (_extract_bubbles_from_text output).length ≤ 12 ∧
      (∀ b ∈ _extract_bubbles_from_text output, ∃ c r,
        b = JVal.jobj [(("concept"), .jstr c), (("reason"), .jstr r),
          (("importance"), .jnum 3)])) ∧
    _extract_bubbles_from_text scenarioReply = [] ∧
    _extract_bubbles_from_text scenarioReplyNl =
      [JVal.jobj [(("concept"), .jstr ("Entropy")),
        (("reason"), .jstr ("drives disorder")), (("importance"), .jnum 3)]] ∧
    pyJsonLoads scenarioReply = none := by
  refine ⟨?_, rfl, rfl, rfl⟩
  intro output ti n hp
  refine ⟨?_, rfl, rfl, rfl, rfl, extract_len output, extract_shape output⟩
  unfold reconcileJson
  rw [hp]

/-- Witness for claim C4 at the scenario reply. -/
theorem claim_C4_witness :
    reconcileJson scenarioReply ("T") 5 =
      .ok (repairRecord ("T") scenarioReply 5) ∧
    lookupJ (fieldsOf (repairRecord ("T") scenarioReply 5)) ("error") =
      some (.jstr ("JSON parsing failed")) ∧
    lookupJ (fieldsOf (repairRecord ("T") scenarioReply 5)) ("raw_output") =
      some (.jstr scenarioReply) ∧
    lookupJ (fieldsOf (repairRecord ("T") scenarioReply 5))
      ("transcript_character_count") = some (.jnum ((5 : Int))) ∧
    lookupJ (fieldsOf (repairRecord ("T") scenarioReply 5)) ("mindmap_bubbles") =
      some (.jarr (_extract_bubbles_from_text scenarioReply)) ∧
    (_extract_bubbles_from_text scenarioReply).length ≤ 12 ∧
    (∀ b ∈ _extract_bubbles_from_text scenarioReply, ∃ c r,
      b = JVal.jobj [(("concept"), .jstr c), (("reason"), .jstr r),
        (("importance"), .jnum 3)]) :=
  claim_C4.1 scenarioReply ("T") 5 (by rfl)

/-- Counterexample to claim C4 as stated: for the scenario reply the
output's `mindmap_bubbles` is the empty array, not the claimed singleton
Entropy bubble. -/
theorem claim_C4_counterexample :
    ∃ j, (generate_structured_notes 4000 6 envC4 t100 ("T") ("json") none).1 =
        .jsonDoc j ∧
      lookupJ (fieldsOf j) ("raw_output") = some (.jstr scenarioReply) ∧
      lookupJ (fieldsOf j) ("error") = some (.jstr ("JSON parsing failed")) ∧
      lookupJ (fieldsOf j) ("mindmap_bubbles") = some (.jarr []) ∧
      JVal.jarr [] ≠ JVal.jarr [JVal.jobj [(("concept"), .jstr ("Entropy")),
        (("reason"), .jstr ("drives disorder")), (("importance"), .jnum 3)]] :=
  ⟨_, rfl, rfl, rfl, rfl, by
    intro hcontra
    injection hcontra with h1
    cases h1⟩

/-- Claim C10: the too-short JSON placeholder carries no `mindmap_bubbles`
field, while every other JSON record `generate_structured_notes` can return
(parse success, parse-failure repair, deterministic fallback) carries one. -/
theorem claim_C10 (L M : Nat) (env : Env) (ak : Option String)
    (t ti : String) (j : JVal)
    (h : (generate_structured_notes L M env t ti ("json") ak).1 = .jsonDoc j) :
    ((t = ("") ∨ (pyStrip t).length < 80) →
      lookupJ (fieldsOf j) ("mindmap_bubbles") = none) ∧
    (¬(t = ("") ∨ (pyStrip t).length < 80) →
      (lookupJ (fieldsOf j) ("mindmap_bubbles")).isSome) := by
  rcases gen_jsonDoc_cases L M env ak t ti ("json") j h with ⟨hs, hj⟩ | ⟨hs, hj⟩
  · subst hj
    exact ⟨fun _ => rfl, fun hns => absurd hs hns⟩
  · refine ⟨fun hss => absurd hss hs, fun _ => ?_⟩
    rcases hj with ⟨d, hd⟩ | ⟨raw, hraw⟩ | hsimple
    · subst hd
      exact normalize_bubbles_isSome d ti t.length
    · subst hraw; rfl
    · subst hsimple; rfl

/-- Witness for claim C10 on the too-short path. -/
theorem claim_C10_witness :
    lookupJ (fieldsOf (tooShortRecord ("T") (String.length ("hi"))))
      ("mindmap_bubbles") = none :=
  (claim_C10 4000 6 envFail none ("hi") ("T") _ (by rfl)).1 (by decide)

end Transcrib8
